import Mathlib

/-!
# Verification of the jazz-improvisation-mcp profile synthesizer

Shallow embedding of `src/jazz_improvisation_mcp` (enhancer.py, olog_loader.py,
server.py).

Numeric model: every quantity the Python code manipulates is a decimal with at
most one fractional digit (the formulas multiply an integer intensity level by
0.1/0.2/0.3/0.4, add integers, add 1.5, or multiply a small integer by 0.8).
We represent such a value exactly as an integer number of TENTHS (`x` stands
for the Python float `x / 10`).  Python's builtin `round` is round-half-to-even
(banker's rounding) on the float's real value; `pyRoundTenths` implements it on
tenths.  On every input domain quantified by a theorem below (intensity levels
in [1,10], the five complexity severities, all three phases and the default
branch) the IEEE-754 double products computed by the source land exactly on the
decimal value (checked case by case), so the tenths model agrees with the
float execution bit-for-bit after rounding.

The five dimensions `note_density`, `rhythmic_subdivision`,
`harmonic_complexity`, `melodic_singularity`, `rest_space` are Python `int`s
after `round`/clamp and are modelled as plain `ℤ`; `beat_relationship` stays a
Python float in the source (it is never rounded or clamped) and is modelled in
tenths.
-/

/-- Python `round` on a value given in integer tenths: round half to even.
For `n = 10*q + r` with `0 ≤ r < 10` (floor semantics, as Python), the result
is `q` for `r < 5`, `q+1` for `r > 5`, and at the halfway point `r = 5` the
even neighbour: `q` when `q` is even (`n % 20 = 5`), else `q+1`. -/
def pyRoundTenths (n : ℤ) : ℤ :=
  if n % 20 = 5 then n / 10 else (n + 5) / 10

/-- The four complexity classes appearing in the foundation catalog, plus a
default case for any other / missing value (the source reads the class from a
dict and falls back to severity 5 on a miss). -/
inductive ComplexityClass where
  | angular_chromatic
  | bebop_dense
  | modal_repetition
  | lyrical_simple
  | other
deriving DecidableEq

/-- A harmonic-foundation record (one YAML catalog entry): name, complexity
class, key center, characteristic text, canonical-status flag. -/
structure Foundation where
  name : String
  complexity : ComplexityClass
  key_center : String
  characteristic : String
  monk_essence : Bool
deriving DecidableEq

/-- A phase-specification record from the intentionality catalog. -/
structure PhaseSpec where
  narrative_role : String
  sensory_intention : String
  visual_analog : String
  how_it_feels : String
  what_happens_musically : String
deriving DecidableEq

/-- A Monk visual-intention record (one entry of
`monk_visual_sensory_intention`). -/
structure MonkIntent where
  visual_equivalent : String
  sonic : String
deriving DecidableEq

/-- The data loaded by `JazzImprovisationOlog` from the two YAML files:
the foundation catalog, the intentionality map (keyed by phase key), and the
Monk visual-intention map. -/
structure Olog where
  foundations : List Foundation
  intentionality : List (String × PhaseSpec)
  monk_visual : List (String × MonkIntent)

/-- Python `str.lower()`.  (Character-list map; unlike `String.toLower`'s
positional implementation this reduces inside the kernel.  The strings
dispatched on below are ASCII.) -/
def strToLower (s : String) : String := ⟨s.data.map Char.toLower⟩

/-- Python `str.startswith` (character-list comparison; unlike
`String.startsWith`'s positional implementation this reduces inside the
kernel). -/
def strStartsWith (s pre : String) : Bool := pre.data.isPrefixOf s.data

/-- `JazzImprovisationOlog.get_harmonic_foundation`: linear scan of the
catalog by exact name, `None` on a miss. -/
def get_harmonic_foundation (olog : Olog) (name : String) : Option Foundation :=
  olog.foundations.find? (fun hf => hf.name == name)

/-- `JazzImprovisationOlog.get_phase_specification`: keys already starting
with `phase_` are looked up directly; otherwise the simple name is mapped via
the phase-key map, defaulting to `phase_<lowercased name>`. -/
def get_phase_specification (olog : Olog) (phase_name : String) : Option PhaseSpec :=
  if strStartsWith phase_name "phase_" then
    olog.intentionality.lookup phase_name
  else
    let key :=
      if (strToLower phase_name) = "statement" then "phase_1_statement"
      else if (strToLower phase_name) = "development" then "phase_2_development"
      else if (strToLower phase_name) = "resolution" then "phase_3_resolution"
      else "phase_" ++ (strToLower phase_name)
    olog.intentionality.lookup key

/-- `JazzImprovisationEnhancer._harmonic_complexity_from_foundation`:
map the foundation's complexity class to a severity score 1-10, default 5. -/
def harmonic_complexity_from_foundation (hf : Foundation) : ℤ :=
  match hf.complexity with
  | .angular_chromatic => 9
  | .bebop_dense => 8
  | .modal_repetition => 4
  | .lyrical_simple => 3
  | .other => 5

/-- The intensity profile as built by `_build_intensity_profile`: five integer
dimensions, `beat_relationship` in tenths (a Python float in the source), and
the two coherence annotations. -/
structure IntensityProfile where
  note_density : ℤ
  rhythmic_subdivision : ℤ
  harmonic_complexity : ℤ
  melodic_singularity : ℤ
  rest_space : ℤ
  beat_relationship : ℤ
  coherence_valid : Bool
  coherence_note : String
deriving DecidableEq

/-- The argument of `validate_intensity_profile`: a Python dict, each key
possibly absent (the source reads every key with `.get(key, 5)`).
`beat_relationship` is in tenths; its absent-key default 5 is `50`. -/
structure IntensityDict where
  note_density : Option ℤ
  rhythmic_subdivision : Option ℤ
  harmonic_complexity : Option ℤ
  melodic_singularity : Option ℤ
  rest_space : Option ℤ
  beat_relationship : Option ℤ
deriving DecidableEq

/-- `JazzImprovisationOlog.validate_intensity_profile`: three threshold
checks with early return, then the success result. -/
def validate_intensity_profile (d : IntensityDict) : Bool × String :=
  if d.note_density.getD 5 > 6 ∧ d.rest_space.getD 5 < 6 then
    (false, "High note density requires high rest space for legibility")
  else if d.harmonic_complexity.getD 5 > 7 ∧ d.melodic_singularity.getD 5 < 6 then
    (false, "High harmonic complexity requires high melodic singularity")
  else if d.beat_relationship.getD 50 > 70 ∧ d.harmonic_complexity.getD 5 < 4 then
    (false, "Behind-the-beat playing needs harmonic complexity for anchor")
  else
    (true, "Intensity profile is coherent")

/-- The per-phase base formulas of `_build_intensity_profile`, in tenths:
`(note_density, rhythmic_subdivision, harmonic_complexity_actual, rest_space)`
as functions of the phase string (already lowercased by the caller) and the
intensity level. The final branch is the source's default-to-development
constants. -/
def basePhaseValues (p : String) (l : ℤ) : ℤ × ℤ × ℤ × ℤ :=
  if p = "statement" then
    (20 + l, 20 + l, 10 + l, 70 - 2 * l)
  else if p = "development" then
    (50 + 3 * l, 50 + 3 * l, 60 + 3 * l, 40 + 4 * l)
  else if p = "resolution" then
    (30 + 2 * l, 30 + 2 * l, 30 + 2 * l, 60 - l)
  else
    (50, 50, 60, 50)

/-- `JazzImprovisationEnhancer._build_intensity_profile`.  Base formulas per
`phase.lower()`, Monk-emphasis adjustment (rest up by 1.5 capped at 10, and
the harmonic override to `0.8 * severity` when the phase value is below the
foundation severity), then round-half-even and clamp to [1,10] for every
dimension except `beat_relationship` (left as the raw float, in tenths) and
`melodic_singularity` (set directly to 8 or 6), and finally the coherence
annotation from `validate_intensity_profile`. -/
def buildIntensityProfile (phase : String) (intensity_level : ℤ)
    (harmonic_complexity : ℤ) (monk_emphasis : Bool := true) : IntensityProfile :=
  let base := basePhaseValues (strToLower phase) intensity_level
  let note_density := base.1
  let rhythmic_subdivision := base.2.1
  let harmonic_complexity_actual :=
    if monk_emphasis = true ∧ base.2.2.1 < 10 * harmonic_complexity then
      8 * harmonic_complexity
    else base.2.2.1
  let rest_space :=
    if monk_emphasis = true then min 100 (base.2.2.2 + 15) else base.2.2.2
  let nd := min 10 (max 1 (pyRoundTenths note_density))
  let rs := min 10 (max 1 (pyRoundTenths rhythmic_subdivision))
  let hc := min 10 (max 1 (pyRoundTenths harmonic_complexity_actual))
  let ms := if intensity_level < 5 then 8 else 6
  let rest := min 10 (max 1 (pyRoundTenths rest_space))
  let beat :=
    if monk_emphasis = false then 50 + 3 * intensity_level
    else 70 + 2 * intensity_level
  let vm := validate_intensity_profile
    { note_density := some nd, rhythmic_subdivision := some rs,
      harmonic_complexity := some hc, melodic_singularity := some ms,
      rest_space := some rest, beat_relationship := some beat }
  { note_density := nd, rhythmic_subdivision := rs, harmonic_complexity := hc,
    melodic_singularity := ms, rest_space := rest, beat_relationship := beat,
    coherence_valid := vm.1, coherence_note := vm.2 }

/-- `JazzImprovisationEnhancer.compare_phases_intensity`: build the three
per-phase profiles at intensity level 5 with `monk_emphasis` left at its
default `true`.  The foundation lookup result is fed to
`_harmonic_complexity_from_foundation` without a `None` guard; on an unknown
name the Python code raises `AttributeError` (`None` has no attribute `get`),
modelled here as `none`. -/
def comparePhasesIntensity (olog : Olog) (harmonic_foundation : String := "Round Midnight") :
    Option (IntensityProfile × IntensityProfile × IntensityProfile) :=
  match get_harmonic_foundation olog harmonic_foundation with
  | none => none
  | some hf =>
    let hc := harmonic_complexity_from_foundation hf
    some (buildIntensityProfile "statement" 5 hc,
          buildIntensityProfile "development" 5 hc,
          buildIntensityProfile "resolution" 5 hc)

/-- The phase-keyword lists of `_synthesize_prompt`, resolved per
`solo_phase.lower()` with the development list as the default. -/
def phaseKeywords (solo_phase : String) (hfName hfCharacteristic : String) : List String :=
  let statement :=
    ["sharp focus, established baseline",
     "clarity entering, defined edges",
     "foundational structure, reference point",
     "harmonic foundation of " ++ hfName ++ " clarity"]
  let development :=
    ["layering, complexity emerging from pattern",
     "density increasing yet coherent",
     "revealed structure within apparent chaos",
     "intense exploration within constraint",
     "patterns visible through texture",
     "exploring " ++ hfCharacteristic,
     "mastery accumulating through variation"]
  let resolution :=
    ["clarity restored, pattern now visible",
     "complexity synthesized into unified whole",
     "earned knowledge integrated",
     "precision and confidence",
     "returning to " ++ hfName ++ " with understanding"]
  if (strToLower solo_phase) = "statement" then statement
  else if (strToLower solo_phase) = "development" then development
  else if (strToLower solo_phase) = "resolution" then resolution
  else development

/-- The intensity-adjective map of `_synthesize_prompt`; keys 1-10, default
"moderate". -/
def intensityDesc (intensity_level : ℤ) : String :=
  if intensity_level = 1 then "minimal, sparse"
  else if intensity_level = 2 then "restrained, foundational"
  else if intensity_level = 3 then "subtle, emergent"
  else if intensity_level = 4 then "modest, controlled"
  else if intensity_level = 5 then "balanced, moderate"
  else if intensity_level = 6 then "building, intensifying"
  else if intensity_level = 7 then "complex, layered"
  else if intensity_level = 8 then "dense, intricate"
  else if intensity_level = 9 then "extreme, maximum variation"
  else if intensity_level = 10 then "total saturation, complete exploration"
  else "moderate"

/-- `JazzImprovisationEnhancer._synthesize_prompt`, with the fields the
source reads from its `enhancement` dict passed individually.  The Monk
principle sentence is appended only when the value is present and truthy
(a nonempty string), mirroring Python's `if enhancement.get(...)`. -/
def synthesizePrompt (base_prompt : String) (hfName hfCharacteristic : String)
    (howItFeels sensoryIntention visualAnalog : String)
    (monkVisualPrinciple : Option String)
    (solo_phase : String) (intensity_level : ℤ) : String :=
  let keywords := phaseKeywords solo_phase hfName hfCharacteristic
  let enhanced :=
    base_prompt ++ ", with the sensory character of a jazz solo in the " ++
    solo_phase ++ " phase: " ++ howItFeels ++ ". Visual treatment: " ++
    String.intercalate ", " (keywords.take 2) ++ ". Intensity profile: " ++
    intensityDesc intensity_level ++ ". The image should feel like it's " ++
    sensoryIntention ++ ". Visual analog: " ++ visualAnalog ++ ". "
  match monkVisualPrinciple with
  | some s => if s.isEmpty then enhanced else enhanced ++ "Monk principle: " ++ s ++ " "
  | none => enhanced

/-- The flat result dict of `enhance_prompt_with_jazz_structure`. -/
structure EnhancementResult where
  original_prompt : String
  enhanced_prompt : String
  harmonic_foundation : String
  solo_phase : String
  intensity_profile : IntensityProfile
  sensory_intention : String
  visual_analog : String
  how_it_feels : String
  monk_principles : Option String
  coherence_note : String
  temporal_note : String
deriving DecidableEq

/-- `JazzImprovisationEnhancer.enhance_prompt_with_jazz_structure`.
The intensity level is clamped into [1,10]; an unknown foundation falls back
to "Round Midnight" and an unknown phase key to `phase_2_development`.
`none` models the Python exceptions that would be raised if the fallback
lookups themselves fail (`None['name']` / `None.get`). -/
def enhance_prompt_with_jazz_structure (olog : Olog) (base_prompt : String)
    (harmonic_foundation : String := "Round Midnight")
    (solo_phase : String := "development")
    (intensity_level : ℤ := 5) (monk_emphasis : Bool := true) :
    Option EnhancementResult :=
  let intensity_level :=
    if intensity_level < 1 ∨ 10 < intensity_level then
      max 1 (min 10 intensity_level)
    else intensity_level
  let hf? :=
    match get_harmonic_foundation olog harmonic_foundation with
    | none => get_harmonic_foundation olog "Round Midnight"
    | some f => some f
  match hf? with
  | none => none
  | some hf =>
    let phase_key :=
      if (strToLower solo_phase) = "statement" then "phase_1_statement"
      else if (strToLower solo_phase) = "development" then "phase_2_development"
      else if (strToLower solo_phase) = "resolution" then "phase_3_resolution"
      else "phase_2_development"
    let ps? :=
      match get_phase_specification olog phase_key with
      | none => get_phase_specification olog "phase_2_development"
      | some s => some s
    match ps? with
    | none => none
    | some phase_spec =>
      let intensity_profile := buildIntensityProfile solo_phase intensity_level
        (harmonic_complexity_from_foundation hf) monk_emphasis
      let monk_visual_principle : Option String :=
        if monk_emphasis = true then
          (olog.monk_visual.lookup ((strToLower solo_phase) ++ "_phase_intent")).map
            (fun mi => mi.visual_equivalent)
        else none
      let enhanced_prompt := synthesizePrompt base_prompt hf.name
        hf.characteristic phase_spec.how_it_feels phase_spec.sensory_intention
        phase_spec.visual_analog monk_visual_principle solo_phase intensity_level
      some
        { original_prompt := base_prompt
          enhanced_prompt := enhanced_prompt
          harmonic_foundation := hf.name
          solo_phase := solo_phase
          intensity_profile := intensity_profile
          sensory_intention := phase_spec.sensory_intention
          visual_analog := phase_spec.visual_analog
          how_it_feels := phase_spec.how_it_feels
          monk_principles := monk_visual_principle
          coherence_note := "This enhancement maintains the " ++ solo_phase ++
            " phase character: " ++ phase_spec.narrative_role
          temporal_note := "This visual should feel like it unfolds through time—constraint establishing, complexity emerging, then clarity resolving" }

/-- Modelled from the spec: the two YAML data files
(`categorical_structure.yaml` and `intentionality_reasoning.yaml`) are not
present under `src/`; this constant models their loaded contents.  The four
foundations and their names are fixed by spec section 6 (tool enum) and the
test suite; "Round Midnight" is `angular_chromatic` with canonical status
(spec section 8, tests), "Evidence" is `bebop_dense` (test comment); the
remaining two classes are assigned one each per spec section 3's closed
four-value enumeration.  All purely descriptive strings (key centers,
characteristics, phase texts, Monk intents) are opaque in the spec and are
represented by fixed placeholder values; no claim below depends on them. -/
def jazzOlog : Olog :=
  { foundations :=
      [⟨"Round Midnight", .angular_chromatic, "E-flat minor", "angular chromatic movement", true⟩,
       ⟨"Evidence", .bebop_dense, "A-flat major", "dense bebop line", false⟩,
       ⟨"Epistrophy", .modal_repetition, "D-flat", "riff repetition", false⟩,
       ⟨"Ask Me Now", .lyrical_simple, "E-flat major", "lyrical ballad", false⟩]
    intentionality :=
      [("phase_1_statement",
        ⟨"establishing the ground", "clarity arriving", "sharp outline", "a theme stated", "theme exposition"⟩),
       ("phase_2_development",
        ⟨"exploring the material", "knowledge unfolding", "layering and coherence", "complexity rising", "variation and expansion"⟩),
       ("phase_3_resolution",
        ⟨"integrating the journey", "earned clarity", "pattern revealed", "understanding settling", "return and synthesis"⟩)]
    monk_visual :=
      [("statement_phase_intent", ⟨"clean angular geometry", "sparse voicing"⟩),
       ("development_phase_intent", ⟨"dissonant texture held in form", "clusters and space"⟩),
       ("resolution_phase_intent", ⟨"resolved asymmetry", "final cadence"⟩)] }

/-- The result dict of `impl_get_harmonic_foundation_details`: either an
error record or the foundation's fields. -/
inductive FoundationDetails where
  | error (message : String)
  | details (name : String) (complexity : ComplexityClass)
      (key_center : String) (characteristic : String) (monk_essence : Bool)
deriving DecidableEq

/-- `server.impl_get_harmonic_foundation_details`: a data-valued error on an
unknown name, otherwise the record's fields.  Total: no code path raises. -/
def impl_get_harmonic_foundation_details (foundation_name : String) : FoundationDetails :=
  match get_harmonic_foundation jazzOlog foundation_name with
  | none => .error ("Foundation '" ++ foundation_name ++ "' not found")
  | some f => .details f.name f.complexity f.key_center f.characteristic f.monk_essence

/-! ## Helper lemmas -/

theorem pyRoundTenths_mono {a b : ℤ} (h : a ≤ b) : pyRoundTenths a ≤ pyRoundTenths b := by
  unfold pyRoundTenths
  split_ifs <;> omega

/-- The rounded-and-clamped rest dimension never decreases under the
emphasis adjustment `min 100 (r + 15)` (rest up by 1.5, capped at 10). -/
theorem clampRound_emphasis_ge (r : ℤ) :
    min 10 (max 1 (pyRoundTenths r)) ≤ min 10 (max 1 (pyRoundTenths (min 100 (r + 15)))) := by
  rcases le_or_lt (r + 15) 100 with h | h
  · have h1 : min 100 (r + 15) = r + 15 := by omega
    have h2 := pyRoundTenths_mono (show r ≤ r + 15 by omega)
    rw [h1]; omega
  · have h1 : min 100 (r + 15) = 100 := by omega
    have h2 : pyRoundTenths 100 = 10 := by decide
    rw [h1, h2]; omega

/-- Definition following the spec's words (section 4.3): three independent
threshold rules evaluated in the fixed order 1, 2, 3; the first failing rule
determines the invalid result and its message; if no rule fails the result is
valid with the coherence message.  Stated separately from
`validate_intensity_profile` (which is translated from the source) so that
their equality is a meaningful refinement check. -/
def validateCascadeSpec (d : IntensityDict) : Bool × String :=
  let rule1 := d.note_density.getD 5 > 6 ∧ d.rest_space.getD 5 < 6
  let rule2 := d.harmonic_complexity.getD 5 > 7 ∧ d.melodic_singularity.getD 5 < 6
  let rule3 := d.beat_relationship.getD 50 > 70 ∧ d.harmonic_complexity.getD 5 < 4
  if rule1 then (false, "High note density requires high rest space for legibility")
  else if rule2 then (false, "High harmonic complexity requires high melodic singularity")
  else if rule3 then (false, "Behind-the-beat playing needs harmonic complexity for anchor")
  else (true, "Intensity profile is coherent")

/-! ## Claim theorems -/

/-- C1 (counterexample): the claim "every numeric dimension of the returned
IntensityProfile, `beat_relationship` included, is an integer in [1,10]"
fails: at phase "development", intensity level 1, foundation severity 9
(angular_chromatic), emphasis on, `beat_relationship` is the Python float
`7 + 1*0.2 = 7.2` (72 tenths), which is not an integer (in tenths: not a
multiple of 10). -/
theorem beat_relationship_not_integral :
    ¬ ((10 : ℤ) ∣ (buildIntensityProfile "development" 1 9 true).beat_relationship) := by
  decide

/-- C1 (amended): for every phase string, every integer intensity level,
every foundation complexity class and either emphasis flag, the five
dimensions that pass through round-and-clamp — `note_density`,
`rhythmic_subdivision`, `harmonic_complexity`, `melodic_singularity`,
`rest_space` — are integers (Python `int`s, here `ℤ`) in [1,10].
`beat_relationship` is excluded: it is never rounded or clamped. -/
theorem profile_dimensions_in_range :
    ∀ (phase : String) (l : ℤ) (hf : Foundation) (e : Bool),
    let pr := buildIntensityProfile phase l (harmonic_complexity_from_foundation hf) e
    (1 ≤ pr.note_density ∧ pr.note_density ≤ 10) ∧
    (1 ≤ pr.rhythmic_subdivision ∧ pr.rhythmic_subdivision ≤ 10) ∧
    (1 ≤ pr.harmonic_complexity ∧ pr.harmonic_complexity ≤ 10) ∧
    (1 ≤ pr.melodic_singularity ∧ pr.melodic_singularity ≤ 10) ∧
    (1 ≤ pr.rest_space ∧ pr.rest_space ≤ 10) := by
  intro phase l hf e
  simp only [buildIntensityProfile]
  split_ifs <;> omega

/-- C2: the claim "compare_phases_intensity returns a result for every
foundation-name string, including names not present in the catalog" fails on
the code: for the unknown name "Blue Monk" the foundation lookup yields
`None`, which is passed unguarded into `_harmonic_complexity_from_foundation`
where `None.get('complexity')` raises `AttributeError` (modelled as `none`). -/
theorem compare_phases_crashes_on_unknown_name :
    comparePhasesIntensity jazzOlog "Blue Monk" = none := by
  decide

/-- C3: `validate_intensity_profile` is exactly the spec's three-rule
cascade: rules checked in the fixed order 1, 2, 3, first failing rule wins
with its exact message, the valid result carrying "Intensity profile is
coherent" otherwise.  Because the rules are nested if-else, a later rule is
never consulted once an earlier one fails.  The function returns only the
flag and message, so the numeric dimensions of the profile are untouched by
validation. -/
theorem validate_matches_spec_cascade :
    ∀ d : IntensityDict, validate_intensity_profile d = validateCascadeSpec d :=
  fun _ => rfl

/-- C4 (counterexample): in the scenario
`enhance(base_prompt="a bottle of hot sauce", foundation="Round Midnight",
phase="development", intensity=5, emphasis=true)` the claim expects
`note_density = 7` via `round(5 + 0.3*5) = round(6.5) = 7`; but Python's
`round` is round-half-to-even, so `round(6.5) = 6` and the quadruple
(original_prompt, solo_phase, note_density, rest_space) differs from the
claimed one. -/
theorem enhance_scenario_counterexample :
    ((enhance_prompt_with_jazz_structure jazzOlog "a bottle of hot sauce"
        "Round Midnight" "development" 5 true).map
      fun r => (r.original_prompt, r.solo_phase,
        r.intensity_profile.note_density, r.intensity_profile.rest_space)) ≠
    some ("a bottle of hot sauce", "development", 7, 8) := by
  decide

/-- C4 (amended): in the same scenario the result echoes the base prompt and
phase, `note_density = round(6.5) = 6` (round half to even), and
`rest_space = round(min(10, 6.0 + 1.5)) = round(7.5) = 8`. -/
theorem enhance_scenario_values :
    ((enhance_prompt_with_jazz_structure jazzOlog "a bottle of hot sauce"
        "Round Midnight" "development" 5 true).map
      fun r => (r.original_prompt, r.solo_phase,
        r.intensity_profile.note_density, r.intensity_profile.rest_space)) =
    some ("a bottle of hot sauce", "development", 6, 8) := by
  decide

/-- C5: for every intensity level in [1,10], every foundation complexity
class and either emphasis flag, resolution's rounded-and-clamped
harmonic_complexity never exceeds development's at the same inputs. -/
theorem resolution_hc_le_development_hc :
    ∀ (l : ℤ), 1 ≤ l → l ≤ 10 → ∀ (hf : Foundation) (e : Bool),
    (buildIntensityProfile "resolution" l (harmonic_complexity_from_foundation hf) e).harmonic_complexity ≤
    (buildIntensityProfile "development" l (harmonic_complexity_from_foundation hf) e).harmonic_complexity := by
  intro l h1 h2 hf e
  obtain ⟨n, c, k, ch, m⟩ := hf
  cases c <;> simp only [harmonic_complexity_from_foundation] <;>
    cases e <;> interval_cases l <;> decide

/-- C5 witness at l = 5, angular_chromatic, emphasis on. -/
theorem resolution_hc_le_development_hc_witness :
    (buildIntensityProfile "resolution" 5
      (harmonic_complexity_from_foundation ⟨"Round Midnight", .angular_chromatic, "E-flat minor", "angular chromatic movement", true⟩) true).harmonic_complexity ≤
    (buildIntensityProfile "development" 5
      (harmonic_complexity_from_foundation ⟨"Round Midnight", .angular_chromatic, "E-flat minor", "angular chromatic movement", true⟩) true).harmonic_complexity :=
  resolution_hc_le_development_hc 5 (by decide) (by decide)
    ⟨"Round Midnight", .angular_chromatic, "E-flat minor", "angular chromatic movement", true⟩ true

/-- C6: for every phase string, every integer intensity level and every
foundation complexity class, enabling the emphasis flag never decreases the
rounded-and-clamped rest_space. -/
theorem emphasis_never_decreases_rest_space :
    ∀ (phase : String) (l : ℤ) (hf : Foundation),
    (buildIntensityProfile phase l (harmonic_complexity_from_foundation hf) false).rest_space ≤
    (buildIntensityProfile phase l (harmonic_complexity_from_foundation hf) true).rest_space := by
  intro phase l hf
  have h1 : (false = true) = False := by simp
  have h2 : (true = true) = True := by simp
  simp only [buildIntensityProfile, h1, h2, if_false, if_true]
  exact clampRound_emphasis_ge _

/-- C7: with phase fixed to development and the emphasis flag and complexity
class held fixed, the rounded-and-clamped note_density is monotone
non-decreasing in the intensity level over [1,10]. -/
theorem development_note_density_monotone :
    ∀ (l1 l2 : ℤ) (hf : Foundation) (e : Bool), 1 ≤ l1 → l1 < l2 → l2 ≤ 10 →
    (buildIntensityProfile "development" l1 (harmonic_complexity_from_foundation hf) e).note_density ≤
    (buildIntensityProfile "development" l2 (harmonic_complexity_from_foundation hf) e).note_density := by
  intro l1 l2 hf e h1 h2 h3
  have hb : ∀ l : ℤ, basePhaseValues (strToLower "development") l =
      (50 + 3 * l, 50 + 3 * l, 60 + 3 * l, 40 + 4 * l) := fun _ => rfl
  simp only [buildIntensityProfile, hb]
  have := pyRoundTenths_mono (show (50 + 3 * l1 : ℤ) ≤ 50 + 3 * l2 by omega)
  omega

/-- C7 witness at l1 = 3, l2 = 7, bebop_dense, emphasis off. -/
theorem development_note_density_monotone_witness :
    (buildIntensityProfile "development" 3
      (harmonic_complexity_from_foundation ⟨"Evidence", .bebop_dense, "A-flat major", "dense bebop line", false⟩) false).note_density ≤
    (buildIntensityProfile "development" 7
      (harmonic_complexity_from_foundation ⟨"Evidence", .bebop_dense, "A-flat major", "dense bebop line", false⟩) false).note_density :=
  development_note_density_monotone 3 7
    ⟨"Evidence", .bebop_dense, "A-flat major", "dense bebop line", false⟩ false
    (by decide) (by decide) (by decide)

/-- C8: for every olog data set and every foundation-name string not present
in the catalog, `enhance_prompt_with_jazz_structure` produces exactly the
result it produces for "Round Midnight" with all other arguments unchanged
(the unknown name silently falls back to the default foundation). -/
theorem enhance_unknown_foundation_falls_back :
    ∀ (olog : Olog) (base solo : String) (l : ℤ) (e : Bool) (name : String),
    get_harmonic_foundation olog name = none →
    enhance_prompt_with_jazz_structure olog base name solo l e =
    enhance_prompt_with_jazz_structure olog base "Round Midnight" solo l e := by
  intro olog base solo l e name h
  unfold enhance_prompt_with_jazz_structure
  rw [h]
  cases hRM : get_harmonic_foundation olog "Round Midnight" <;> simp [hRM]

/-- C8 witness: "Blue Monk" is not in the modelled catalog and enhance
coincides with the "Round Midnight" call. -/
theorem enhance_unknown_foundation_falls_back_witness :
    enhance_prompt_with_jazz_structure jazzOlog "a bottle of hot sauce" "Blue Monk" "development" 5 true =
    enhance_prompt_with_jazz_structure jazzOlog "a bottle of hot sauce" "Round Midnight" "development" 5 true :=
  enhance_unknown_foundation_falls_back jazzOlog "a bottle of hot sauce"
    "development" 5 true "Blue Monk" (by decide)

/-- C9: `impl_get_harmonic_foundation_details` is total (no code path
raises): on a name missing from the catalog it returns the data-valued error
record with the exact message, and on a catalog name it returns the
foundation record's fields. -/
theorem foundation_details_error_or_fields :
    ∀ name : String,
    (get_harmonic_foundation jazzOlog name = none →
      impl_get_harmonic_foundation_details name =
        .error ("Foundation '" ++ name ++ "' not found")) ∧
    (∀ f : Foundation, get_harmonic_foundation jazzOlog name = some f →
      impl_get_harmonic_foundation_details name =
        .details f.name f.complexity f.key_center f.characteristic f.monk_essence) := by
  intro name
  constructor
  · intro h
    unfold impl_get_harmonic_foundation_details
    rw [h]
  · intro f h
    unfold impl_get_harmonic_foundation_details
    rw [h]

/-- C9 witness: the unknown name "Blue Monk" yields the error record; the
catalog name "Evidence" yields its fields. -/
theorem foundation_details_error_or_fields_witness :
    impl_get_harmonic_foundation_details "Blue Monk" =
      .error ("Foundation '" ++ "Blue Monk" ++ "' not found") ∧
    impl_get_harmonic_foundation_details "Evidence" =
      .details "Evidence" .bebop_dense "A-flat major" "dense bebop line" false :=
  ⟨(foundation_details_error_or_fields "Blue Monk").1 (by decide),
   (foundation_details_error_or_fields "Evidence").2
     ⟨"Evidence", .bebop_dense, "A-flat major", "dense bebop line", false⟩ (by decide)⟩

/-- C10: for every olog data set and every foundation name present in the
catalog, `compare_phases_intensity` returns the three per-phase profiles all
computed at intensity level 5 and with `monk_emphasis = true` (the source
omits the parameter, whose default is true), even though the operation
exposes no intensity or emphasis parameter. -/
theorem compare_phases_uses_level5_and_emphasis :
    ∀ (olog : Olog) (name : String) (hf : Foundation),
    get_harmonic_foundation olog name = some hf →
    comparePhasesIntensity olog name =
      some (buildIntensityProfile "statement" 5 (harmonic_complexity_from_foundation hf) true,
            buildIntensityProfile "development" 5 (harmonic_complexity_from_foundation hf) true,
            buildIntensityProfile "resolution" 5 (harmonic_complexity_from_foundation hf) true) := by
  intro olog name hf h
  unfold comparePhasesIntensity
  rw [h]

/-- C10 witness at the catalog name "Round Midnight". -/
theorem compare_phases_uses_level5_and_emphasis_witness :
    comparePhasesIntensity jazzOlog "Round Midnight" =
      some (buildIntensityProfile "statement" 5
              (harmonic_complexity_from_foundation ⟨"Round Midnight", .angular_chromatic, "E-flat minor", "angular chromatic movement", true⟩) true,
            buildIntensityProfile "development" 5
              (harmonic_complexity_from_foundation ⟨"Round Midnight", .angular_chromatic, "E-flat minor", "angular chromatic movement", true⟩) true,
            buildIntensityProfile "resolution" 5
              (harmonic_complexity_from_foundation ⟨"Round Midnight", .angular_chromatic, "E-flat minor", "angular chromatic movement", true⟩) true) :=
  compare_phases_uses_level5_and_emphasis jazzOlog "Round Midnight"
    ⟨"Round Midnight", .angular_chromatic, "E-flat minor", "angular chromatic movement", true⟩ (by decide)
